import Mathlib

/-!
Shallow embedding of `src/LearnOpenGL/main.cpp`, a minimal GLFW/OpenGL
program that compiles a vertex/fragment shader pair, uploads one triangle
and renders it in a loop until the window is closed or escape is pressed.

External effects (GLFW, the GL driver, the filesystem, the keyboard) are
modelled by an oracle `Env`; the program itself is modelled as a function
from the oracle to a trace of the GL/GLFW calls it issues, exactly in the
order the C++ source issues them.  GL float arguments are modelled as
rationals (every float literal in the source is representable); GL object
names are allocated by a counter starting at 1, mirroring the driver's
guarantee that created names are nonzero.
-/

namespace LearnOpenGL

/-- GL enumerant, `GL_VERTEX_SHADER`. -/
def GL_VERTEX_SHADER : Nat := 0x8B31

/-- GL enumerant, `GL_FRAGMENT_SHADER`. -/
def GL_FRAGMENT_SHADER : Nat := 0x8B30

/-- GL enumerant, `GL_GEOMETRY_SHADER` (never passed by this program; used to
state what `compileShader` would report for a non-vertex shader kind). -/
def GL_GEOMETRY_SHADER : Nat := 0x8DD9

/-- GL enumerant, `GL_TRIANGLES`. -/
def GL_TRIANGLES : Nat := 0x0004

/-- GL enumerant, `GL_ARRAY_BUFFER`. -/
def GL_ARRAY_BUFFER : Nat := 0x8892

/-- GL enumerant, `GL_STATIC_DRAW`. -/
def GL_STATIC_DRAW : Nat := 0x88E4

/-- GL enumerant, `GL_COLOR_BUFFER_BIT`. -/
def GL_COLOR_BUFFER_BIT : Nat := 0x4000

/-- `const int INFO_LOG_SIZE = 512;` (main.cpp line 14). -/
def INFO_LOG_SIZE : Nat := 512

/-- `const unsigned int SCREEN_WIDTH = 800;`. -/
def SCREEN_WIDTH : Nat := 800

/-- `const unsigned int SCREEN_HEIGHT = 600;`. -/
def SCREEN_HEIGHT : Nat := 600

/-- Copy at most `n` characters of `s` into a fresh string: the effect of a
GL `glGet*InfoLog(obj, bufSize, NULL, buf)` call on a `char buf[bufSize]`,
which stores at most `bufSize - 1` characters plus a null terminator. -/
def strTake (s : String) (n : Nat) : String :=
  String.mk (s.data.take n)

/-- One observable call issued by the program, in source order.  Every GL /
GLFW call of main.cpp that touches an object, draws, or reports an error has
a constructor; string payloads carry what the call would print or upload. -/
inductive GLEvent where
  | createShader (ty id : Nat)
  | shaderSource (id : Nat) (src : String)
  | compileShaderCall (id : Nat)
  | deleteShader (id : Nat)
  | createProgram (id : Nat)
  | attachShader (prog sh : Nat)
  | linkProgram (prog : Nat)
  | deleteProgram (id : Nat)
  | genVertexArrays (id : Nat)
  | bindVertexArray (id : Nat)
  | deleteVertexArrays (id : Nat)
  | genBuffers (id : Nat)
  | bindBuffer (target id : Nat)
  | deleteBuffers (id : Nat)
  | bufferData (target : Nat) (data : List Rat) (usage : Nat)
  | vertexAttribPointer (index size : Nat)
  | enableVertexAttribArray (index : Nat)
  | clearColor (r g b a : Rat)
  | clear (mask : Nat)
  | useProgram (id : Nat)
  | drawArrays (mode first count : Nat)
  | processInputCall
  | pollEventsCall
  | swapBuffers
  | stderrLine (s : String)
  | glfwTerminate
deriving DecidableEq

/-- The oracle for everything outside the program: GLFW window / GLAD loader
success, the filesystem, the GL driver's compile/link verdicts and info logs,
and the per-iteration keyboard / window-manager close signals. -/
structure Env where
  windowOk : Bool
  gladOk : Bool
  readFile : String → Except String String
  compileOk : Nat → String → Bool
  shaderInfoLog : Nat → String → String
  linkOk : Bool
  programInfoLog : String
  escPressed : Nat → Bool
  extClose : Nat → Bool

/-- `(type == GL_VERTEX_SHADER) ? "VERTEX" : "FRAGMENT"` (main.cpp line 213). -/
def shaderTypeStr (ty : Nat) : String :=
  if ty = GL_VERTEX_SHADER then "VERTEX" else "FRAGMENT"

/-- The shader info log as retrieved by
`glGetShaderInfoLog(shader, INFO_LOG_SIZE, NULL, infoLog)`: at most
`INFO_LOG_SIZE - 1` characters of the driver's log fit the buffer. -/
def shaderLogReported (env : Env) (ty : Nat) (src : String) : String :=
  strTake (env.shaderInfoLog ty src) (INFO_LOG_SIZE - 1)

/-- The program info log as retrieved by
`glGetProgramInfoLog(shaderProgram, INFO_LOG_SIZE, NULL, infoLog)`. -/
def programLogReported (env : Env) : String :=
  strTake env.programInfoLog (INFO_LOG_SIZE - 1)

/-- The line compileShader prints to `std::cerr` when compilation fails. -/
def compileFailLine (env : Env) (ty : Nat) (src : String) : String :=
  "ERROR::SHADER::" ++ shaderTypeStr ty ++ "::COMPILATION_FAILED\n"
    ++ shaderLogReported env ty src

/-- The line main prints to `std::cerr` when linking fails. -/
def linkFailLine (env : Env) : String :=
  "ERROR::SHADER::PROGRAM::LINKING_FAILED\n" ++ programLogReported env

/-- The line loadShaderSourceFromFile prints to `std::cerr` when the open or
read of `filePath` throws. -/
def loadFailLine (filePath ewhat : String) : String :=
  "ERROR::SHADER::FILE_NOT_SUCCESSFULLY_READ: " ++ filePath ++ "\n" ++ ewhat

/-- `loadShaderSourceFromFile` (main.cpp lines 185-200): returns the file's
full contents, or — when opening/reading throws — prints the failing path
and the exception text and returns the empty string.  The result is the
returned string paired with the stderr trace of the call. -/
def loadShaderSourceFromFile (env : Env) (filePath : String) :
    String × List GLEvent :=
  match env.readFile filePath with
  | .ok contents => (contents, [])
  | .error ewhat => ("", [.stderrLine (loadFailLine filePath ewhat)])

/-- `compileShader` (main.cpp lines 203-221).  `next` is the driver's next
fresh object name (the created shader gets it).  Returns the shader name on
success; on compile failure retrieves the bounded info log, prints the
tagged error line, deletes the shader and returns 0.  Also returns the
updated name counter and the trace of calls made. -/
def compileShader (env : Env) (next : Nat) (ty : Nat) (src : String) :
    Nat × Nat × List GLEvent :=
  let shader := next
  let ev : List GLEvent :=
    [.createShader ty shader, .shaderSource shader src, .compileShaderCall shader]
  if env.compileOk ty src then
    (shader, next + 1, ev)
  else
    (0, next + 1,
      ev ++ [.stderrLine (compileFailLine env ty src), .deleteShader shader])

/-- State of the render loop: the GLFW window's should-close flag and the
iteration index (used to index the oracle's input streams). -/
structure LoopState where
  shouldClose : Bool
  iter : Nat
deriving DecidableEq

/-- `processInput` (main.cpp lines 178-182): if escape is pressed, set the
window's should-close flag. -/
def processInput (env : Env) (s : LoopState) : LoopState :=
  if env.escPressed s.iter then { s with shouldClose := true } else s

/-- `glfwPollEvents`: the window manager's close request (clicking the close
button) sets the should-close flag during event processing. -/
def pollEvents (env : Env) (s : LoopState) : LoopState :=
  if env.extClose s.iter then { s with shouldClose := true } else s

/-- One iteration of the render-loop body (main.cpp lines 145-161), in source
order: set clear color, clear, use program, bind vertex array, draw the
triangle, process input, poll events, swap buffers. -/
def loopBody (env : Env) (prog vao : Nat) (s : LoopState) :
    List GLEvent × LoopState :=
  let s1 := processInput env s
  let s2 := pollEvents env s1
  ([.clearColor (1/5) (3/10) (3/10) 1, .clear GL_COLOR_BUFFER_BIT,
    .useProgram prog, .bindVertexArray vao, .drawArrays GL_TRIANGLES 0 3,
    .processInputCall, .pollEventsCall, .swapBuffers],
   { s2 with iter := s.iter + 1 })

/-- `while (!glfwWindowShouldClose(window)) { ... }`, fuel-bounded: `none`
means the loop was still running when the fuel ran out; `some tr` means the
loop condition observed the close flag after emitting trace `tr`. -/
def renderLoop (env : Env) (prog vao : Nat) (s : LoopState) :
    Nat → Option (List GLEvent)
  | 0 => none
  | fuel + 1 =>
    if s.shouldClose then some []
    else
      let r := loopBody env prog vao s
      (renderLoop env prog vao r.2 fuel).map (fun tr => r.1 ++ tr)

/-- The trace of exactly `n` consecutive executions of the loop body starting
from state `s`. -/
def loopIterates (env : Env) (prog vao : Nat) (s : LoopState) :
    Nat → List GLEvent
  | 0 => []
  | n + 1 =>
    (loopBody env prog vao s).1
      ++ loopIterates env prog vao (loopBody env prog vao s).2 n

/-- `float vertices[] = { -0.5f, -0.5f, 0.0f, 0.5f, -0.5f, 0.0f, 0.0f, 0.5f,
0.0f };` (main.cpp lines 108-112), one triangle, 3 vertices of x, y, z. -/
def vertices : List Rat :=
  [-1/2, -1/2, 0, 1/2, -1/2, 0, 0, 1/2, 0]

/-- Outcome of everything in `main` before the render loop: either an early
`return -1` with the trace emitted so far, or readiness to enter the loop
with the trace so far and the program / vertex-array / buffer names. -/
inductive SetupOutcome where
  | earlyExit (trace : List GLEvent) (code : Int)
  | ready (trace : List GLEvent) (prog vao vbo : Nat)
deriving DecidableEq

/-- The cleanup after the render loop (main.cpp lines 164-169). -/
def shutdownTrace (prog vao vbo : Nat) : List GLEvent :=
  [.deleteVertexArrays vao, .deleteBuffers vbo, .deleteProgram prog,
   .glfwTerminate]

/-- `main` up to the render loop (main.cpp lines 16-142): window and GLAD
setup, the two shader-source loads, the two compiles, program creation and
linking, shader cleanup, and vertex-array / buffer setup — with every early
`return -1` path of the source.  Object names count up from 1. -/
def mainSetup (env : Env) : SetupOutcome :=
  if env.windowOk then
    if env.gladOk then
      let v := loadShaderSourceFromFile env "vshader.vert"
      if v.1 = "" then
        .earlyExit (v.2 ++ [.glfwTerminate]) (-1)
      else
        let f := loadShaderSourceFromFile env "fshader.frag"
        if f.1 = "" then
          .earlyExit (v.2 ++ f.2 ++ [.glfwTerminate]) (-1)
        else
          let c1 := compileShader env 1 GL_VERTEX_SHADER v.1
          if c1.1 = 0 then
            .earlyExit (v.2 ++ f.2 ++ c1.2.2 ++ [.glfwTerminate]) (-1)
          else
            let c2 := compileShader env c1.2.1 GL_FRAGMENT_SHADER f.1
            if c2.1 = 0 then
              .earlyExit
                (v.2 ++ f.2 ++ c1.2.2 ++ c2.2.2
                  ++ [.deleteShader c1.1, .glfwTerminate]) (-1)
            else
              let prog := c2.2.1
              let evLink : List GLEvent :=
                [.createProgram prog, .attachShader prog c1.1,
                 .attachShader prog c2.1, .linkProgram prog]
              if env.linkOk then
                let vao := prog + 1
                let vbo := prog + 2
                .ready
                  (v.2 ++ f.2 ++ c1.2.2 ++ c2.2.2 ++ evLink
                    ++ [.deleteShader c1.1, .deleteShader c2.1]
                    ++ [.genVertexArrays vao, .bindVertexArray vao,
                        .genBuffers vbo, .bindBuffer GL_ARRAY_BUFFER vbo,
                        .bufferData GL_ARRAY_BUFFER vertices GL_STATIC_DRAW,
                        .vertexAttribPointer 0 3, .enableVertexAttribArray 0,
                        .bindBuffer GL_ARRAY_BUFFER 0, .bindVertexArray 0])
                  prog vao vbo
              else
                .earlyExit
                  (v.2 ++ f.2 ++ c1.2.2 ++ c2.2.2 ++ evLink
                    ++ [.stderrLine (linkFailLine env),
                        .deleteShader c1.1, .deleteShader c2.1,
                        .deleteProgram prog, .glfwTerminate]) (-1)
    else
      .earlyExit [.stderrLine "Failed to initialize GLAD", .glfwTerminate] (-1)
  else
    .earlyExit [.stderrLine "Failed to create GLFW window", .glfwTerminate] (-1)

/-- A complete run of `main`: trace of all calls and the exit code. -/
structure RunResult where
  trace : List GLEvent
  exitCode : Int
deriving DecidableEq

/-- `main`, fuel-bounded: `none` when the render loop exceeds the fuel
(the process has not exited), otherwise the full trace and exit code. -/
def mainRun (env : Env) (fuel : Nat) : Option RunResult :=
  match mainSetup env with
  | .earlyExit tr code => some ⟨tr, code⟩
  | .ready tr prog vao vbo =>
    (renderLoop env prog vao ⟨false, 0⟩ fuel).map
      (fun lt => ⟨tr ++ lt ++ shutdownTrace prog vao vbo, 0⟩)

/-- The vertex-shader source string main loads (empty on load failure). -/
def vsrcOf (env : Env) : String :=
  (loadShaderSourceFromFile env "vshader.vert").1

/-- The fragment-shader source string main loads (empty on load failure). -/
def fsrcOf (env : Env) : String :=
  (loadShaderSourceFromFile env "fshader.frag").1

/-- Kinds of GL objects this program creates. -/
inductive ObjKind where
  | shader
  | program
  | vertexArray
  | buffer
deriving DecidableEq

/-- The object-creation events of a trace, as (kind, name) pairs in order. -/
def creations (tr : List GLEvent) : List (ObjKind × Nat) :=
  tr.filterMap fun e =>
    match e with
    | .createShader _ i => some (.shader, i)
    | .createProgram i => some (.program, i)
    | .genVertexArrays i => some (.vertexArray, i)
    | .genBuffers i => some (.buffer, i)
    | _ => none

/-- The object-deletion events of a trace, as (kind, name) pairs in order. -/
def deletions (tr : List GLEvent) : List (ObjKind × Nat) :=
  tr.filterMap fun e =>
    match e with
    | .deleteShader i => some (.shader, i)
    | .deleteProgram i => some (.program, i)
    | .deleteVertexArrays i => some (.vertexArray, i)
    | .deleteBuffers i => some (.buffer, i)
    | _ => none

/-- The payloads of the `glBufferData` uploads of a trace. -/
def bufferUploads (tr : List GLEvent) : List (List Rat) :=
  tr.filterMap fun e =>
    match e with
    | .bufferData _ d _ => some d
    | _ => none

/-- The number of `glDrawArrays` calls in a trace. -/
def drawCount (tr : List GLEvent) : Nat :=
  tr.countP fun e =>
    match e with
    | .drawArrays _ _ _ => true
    | _ => false

/-- The lines a trace writes to standard error. -/
def stderrLines (tr : List GLEvent) : List String :=
  tr.filterMap fun e =>
    match e with
    | .stderrLine s => some s
    | _ => none

/-- The program names created in `tr` and never deleted in `tr`. -/
def livePrograms (tr : List GLEvent) : List Nat :=
  (tr.filterMap fun e =>
    match e with
    | .createProgram i => some i
    | _ => none).filter fun i => decide (GLEvent.deleteProgram i ∉ tr)

/-- The shader names created in `tr` and never deleted in `tr`. -/
def liveShaders (tr : List GLEvent) : List Nat :=
  (tr.filterMap fun e =>
    match e with
    | .createShader _ i => some i
    | _ => none).filter fun i => decide (GLEvent.deleteShader i ∉ tr)

/-- Concrete oracle: everything succeeds, escape is pressed from the first
iteration on.  Used to witness the theorems at a concrete input. -/
def envHappy : Env where
  windowOk := true
  gladOk := true
  readFile := fun p => if p = "vshader.vert" then .ok "V" else .ok "F"
  compileOk := fun _ _ => true
  shaderInfoLog := fun _ _ => ""
  linkOk := true
  programInfoLog := ""
  escPressed := fun _ => true
  extClose := fun _ => false

/-- Classifier for events that the render-loop body can emit. -/
def isLoopEvent : GLEvent → Bool
  | .clearColor _ _ _ _ => true
  | .clear _ => true
  | .useProgram _ => true
  | .bindVertexArray _ => true
  | .drawArrays _ _ _ => true
  | .processInputCall => true
  | .pollEventsCall => true
  | .swapBuffers => true
  | _ => false

/-- Trace of the window-creation-failure path (main.cpp lines 27-31). -/
def windowFailTrace : List GLEvent :=
  [.stderrLine "Failed to create GLFW window", .glfwTerminate]

/-- Trace of the GLAD-initialization-failure path (main.cpp lines 35-39). -/
def gladFailTrace : List GLEvent :=
  [.stderrLine "Failed to initialize GLAD", .glfwTerminate]

/-- Trace of the vertex-shader-compile-failure path. -/
def vertFailTrace (env : Env) : List GLEvent :=
  [.createShader GL_VERTEX_SHADER 1, .shaderSource 1 (vsrcOf env),
   .compileShaderCall 1,
   .stderrLine (compileFailLine env GL_VERTEX_SHADER (vsrcOf env)),
   .deleteShader 1, .glfwTerminate]

/-- Trace of the fragment-shader-compile-failure path. -/
def fragFailTrace (env : Env) : List GLEvent :=
  [.createShader GL_VERTEX_SHADER 1, .shaderSource 1 (vsrcOf env),
   .compileShaderCall 1,
   .createShader GL_FRAGMENT_SHADER 2, .shaderSource 2 (fsrcOf env),
   .compileShaderCall 2,
   .stderrLine (compileFailLine env GL_FRAGMENT_SHADER (fsrcOf env)),
   .deleteShader 2, .deleteShader 1, .glfwTerminate]

/-- Trace of the program-link-failure path. -/
def linkFailTrace (env : Env) : List GLEvent :=
  [.createShader GL_VERTEX_SHADER 1, .shaderSource 1 (vsrcOf env),
   .compileShaderCall 1,
   .createShader GL_FRAGMENT_SHADER 2, .shaderSource 2 (fsrcOf env),
   .compileShaderCall 2,
   .createProgram 3, .attachShader 3 1, .attachShader 3 2, .linkProgram 3,
   .stderrLine (linkFailLine env),
   .deleteShader 1, .deleteShader 2, .deleteProgram 3, .glfwTerminate]

/-- Trace of the successful setup path, up to render-loop entry. -/
def readyTrace (env : Env) : List GLEvent :=
  [.createShader GL_VERTEX_SHADER 1, .shaderSource 1 (vsrcOf env),
   .compileShaderCall 1,
   .createShader GL_FRAGMENT_SHADER 2, .shaderSource 2 (fsrcOf env),
   .compileShaderCall 2,
   .createProgram 3, .attachShader 3 1, .attachShader 3 2, .linkProgram 3,
   .deleteShader 1, .deleteShader 2,
   .genVertexArrays 4, .bindVertexArray 4,
   .genBuffers 5, .bindBuffer GL_ARRAY_BUFFER 5,
   .bufferData GL_ARRAY_BUFFER vertices GL_STATIC_DRAW,
   .vertexAttribPointer 0 3, .enableVertexAttribArray 0,
   .bindBuffer GL_ARRAY_BUFFER 0, .bindVertexArray 0]

/-- Concrete oracle whose driver rejects every fragment shader but accepts
vertex shaders; everything else succeeds. -/
def envFragFail : Env :=
  { envHappy with compileOk := fun ty _ => ty == GL_VERTEX_SHADER }

/-- Concrete oracle whose driver fails program linking; compiles succeed. -/
def envLinkFail : Env :=
  { envHappy with linkOk := false }

/-- Concrete oracle whose filesystem rejects every open. -/
def envNoFile : Env :=
  { envHappy with readFile := fun _ => .error "ifstream failure" }

/-- Concrete oracle whose filesystem returns empty contents for every file. -/
def envEmptyFile : Env :=
  { envHappy with readFile := fun _ => .ok "" }

/-- Classification of a standard-error line of the program: one of the two
fixed GLFW/GLAD messages, a file-read failure line, a tagged compile-failure
line (whose log part is bounded by the 512-byte buffer), or the tagged
link-failure line (likewise bounded). -/
def FatalReport (env : Env) (s : String) : Prop :=
  s = "Failed to create GLFW window" ∨
  s = "Failed to initialize GLAD" ∨
  (∃ p m, s = loadFailLine p m) ∨
  (∃ ty src, s = compileFailLine env ty src) ∨
  s = linkFailLine env

theorem load_events_stderr (env : Env) (p : String) (e : GLEvent)
    (he : e ∈ (loadShaderSourceFromFile env p).2) : ∃ s, e = .stderrLine s := by
  unfold loadShaderSourceFromFile at he
  rcases h : env.readFile p with m | c <;> rw [h] at he <;> simp at he
  exact ⟨_, he⟩

theorem load_snd_of_ok (env : Env) (p c : String)
    (h : env.readFile p = .ok c) : loadShaderSourceFromFile env p = (c, []) := by
  unfold loadShaderSourceFromFile
  rw [h]

theorem load_of_fst_ne (env : Env) (p : String)
    (h : (loadShaderSourceFromFile env p).1 ≠ "") :
    (loadShaderSourceFromFile env p).2 = [] := by
  rcases he : env.readFile p with m | c
  · exfalso
    apply h
    unfold loadShaderSourceFromFile
    rw [he]
  · unfold loadShaderSourceFromFile
    rw [he]

theorem renderLoop_eq_loopIterates (env : Env) (prog vao : Nat) :
    ∀ (fuel : Nat) (s : LoopState) (tr : List GLEvent),
      renderLoop env prog vao s fuel = some tr →
      ∃ n, tr = loopIterates env prog vao s n := by
  intro fuel
  induction fuel with
  | zero => intro s tr h; simp [renderLoop] at h
  | succ fuel ih =>
    intro s tr h
    unfold renderLoop at h
    by_cases hc : s.shouldClose
    · simp [hc] at h
      exact ⟨0, h⟩
    · simp [hc, Option.map_eq_some'] at h
      obtain ⟨tr', h1, h2⟩ := h
      obtain ⟨n, hn⟩ := ih _ _ h1
      exact ⟨n + 1, by simp [loopIterates, ← h2, hn]⟩

theorem renderLoop_nil_of_shouldClose (env : Env) (prog vao : Nat)
    (s : LoopState) (fuel : Nat) (tr : List GLEvent)
    (hc : s.shouldClose = true) (h : renderLoop env prog vao s fuel = some tr) :
    tr = [] := by
  cases fuel with
  | zero => simp [renderLoop] at h
  | succ fuel => simp [renderLoop, hc] at h; exact h

theorem mem_loopIterates (env : Env) (prog vao : Nat) :
    ∀ (n : Nat) (s : LoopState) (e : GLEvent),
      e ∈ loopIterates env prog vao s n → isLoopEvent e = true := by
  intro n
  induction n with
  | zero => intro s e h; simp [loopIterates] at h
  | succ n ih =>
    intro s e h
    simp only [loopIterates, loopBody, List.mem_append, List.mem_cons,
      List.not_mem_nil, or_false] at h
    rcases h with h | h
    · rcases h with h | h | h | h | h | h | h | h <;> subst h <;> rfl
    · exact ih _ _ h

theorem creations_loopIterates (env : Env) (prog vao : Nat) (n : Nat)
    (s : LoopState) : creations (loopIterates env prog vao s n) = [] := by
  rw [creations, List.filterMap_eq_nil_iff]
  intro e he
  have := mem_loopIterates env prog vao n s e he
  cases e <;> simp_all [isLoopEvent]

theorem deletions_loopIterates (env : Env) (prog vao : Nat) (n : Nat)
    (s : LoopState) : deletions (loopIterates env prog vao s n) = [] := by
  rw [deletions, List.filterMap_eq_nil_iff]
  intro e he
  have := mem_loopIterates env prog vao n s e he
  cases e <;> simp_all [isLoopEvent]

theorem bufferUploads_loopIterates (env : Env) (prog vao : Nat) (n : Nat)
    (s : LoopState) : bufferUploads (loopIterates env prog vao s n) = [] := by
  rw [bufferUploads, List.filterMap_eq_nil_iff]
  intro e he
  have := mem_loopIterates env prog vao n s e he
  cases e <;> simp_all [isLoopEvent]

theorem stderrLines_loopIterates (env : Env) (prog vao : Nat) (n : Nat)
    (s : LoopState) : stderrLines (loopIterates env prog vao s n) = [] := by
  rw [stderrLines, List.filterMap_eq_nil_iff]
  intro e he
  have := mem_loopIterates env prog vao n s e he
  cases e <;> simp_all [isLoopEvent]

theorem creations_append (a b : List GLEvent) :
    creations (a ++ b) = creations a ++ creations b :=
  List.filterMap_append a b _

theorem deletions_append (a b : List GLEvent) :
    deletions (a ++ b) = deletions a ++ deletions b :=
  List.filterMap_append a b _

theorem bufferUploads_append (a b : List GLEvent) :
    bufferUploads (a ++ b) = bufferUploads a ++ bufferUploads b :=
  List.filterMap_append a b _

theorem stderrLines_append (a b : List GLEvent) :
    stderrLines (a ++ b) = stderrLines a ++ stderrLines b :=
  List.filterMap_append a b _

theorem creations_load (env : Env) (p : String) :
    creations (loadShaderSourceFromFile env p).2 = [] := by
  rw [creations, List.filterMap_eq_nil_iff]
  intro e he
  obtain ⟨s, rfl⟩ := load_events_stderr env p e he
  rfl

theorem deletions_load (env : Env) (p : String) :
    deletions (loadShaderSourceFromFile env p).2 = [] := by
  rw [deletions, List.filterMap_eq_nil_iff]
  intro e he
  obtain ⟨s, rfl⟩ := load_events_stderr env p e he
  rfl

theorem bufferUploads_load (env : Env) (p : String) :
    bufferUploads (loadShaderSourceFromFile env p).2 = [] := by
  rw [bufferUploads, List.filterMap_eq_nil_iff]
  intro e he
  obtain ⟨s, rfl⟩ := load_events_stderr env p e he
  rfl

theorem load_stderr_line (env : Env) (p s : String)
    (h : GLEvent.stderrLine s ∈ (loadShaderSourceFromFile env p).2) :
    ∃ m, env.readFile p = .error m ∧ s = loadFailLine p m := by
  unfold loadShaderSourceFromFile at h
  rcases he : env.readFile p with m | c <;> rw [he] at h <;> simp at h
  exact ⟨m, rfl, h⟩

theorem mainSetup_cases (env : Env) :
    (env.windowOk = false ∧
      mainSetup env = .earlyExit windowFailTrace (-1))
  ∨ (env.windowOk = true ∧ env.gladOk = false ∧
      mainSetup env = .earlyExit gladFailTrace (-1))
  ∨ (env.windowOk = true ∧ env.gladOk = true ∧ vsrcOf env = "" ∧
      mainSetup env = .earlyExit
        ((loadShaderSourceFromFile env "vshader.vert").2 ++ [.glfwTerminate])
        (-1))
  ∨ (env.windowOk = true ∧ env.gladOk = true ∧ vsrcOf env ≠ "" ∧
      fsrcOf env = "" ∧
      mainSetup env = .earlyExit
        ((loadShaderSourceFromFile env "fshader.frag").2 ++ [.glfwTerminate])
        (-1))
  ∨ (env.windowOk = true ∧ env.gladOk = true ∧ vsrcOf env ≠ "" ∧
      fsrcOf env ≠ "" ∧
      env.compileOk GL_VERTEX_SHADER (vsrcOf env) = false ∧
      mainSetup env = .earlyExit (vertFailTrace env) (-1))
  ∨ (env.windowOk = true ∧ env.gladOk = true ∧ vsrcOf env ≠ "" ∧
      fsrcOf env ≠ "" ∧
      env.compileOk GL_VERTEX_SHADER (vsrcOf env) = true ∧
      env.compileOk GL_FRAGMENT_SHADER (fsrcOf env) = false ∧
      mainSetup env = .earlyExit (fragFailTrace env) (-1))
  ∨ (env.windowOk = true ∧ env.gladOk = true ∧ vsrcOf env ≠ "" ∧
      fsrcOf env ≠ "" ∧
      env.compileOk GL_VERTEX_SHADER (vsrcOf env) = true ∧
      env.compileOk GL_FRAGMENT_SHADER (fsrcOf env) = true ∧
      env.linkOk = false ∧
      mainSetup env = .earlyExit (linkFailTrace env) (-1))
  ∨ (env.windowOk = true ∧ env.gladOk = true ∧ vsrcOf env ≠ "" ∧
      fsrcOf env ≠ "" ∧
      env.compileOk GL_VERTEX_SHADER (vsrcOf env) = true ∧
      env.compileOk GL_FRAGMENT_SHADER (fsrcOf env) = true ∧
      env.linkOk = true ∧
      mainSetup env = .ready (readyTrace env) 3 4 5) := by
  cases hw : env.windowOk with
  | false => exact Or.inl ⟨rfl, by simp [mainSetup, hw, windowFailTrace]⟩
  | true =>
  refine Or.inr ?_
  cases hg : env.gladOk with
  | false => exact Or.inl ⟨rfl, rfl, by simp [mainSetup, hw, hg, gladFailTrace]⟩
  | true =>
  refine Or.inr ?_
  by_cases hv : vsrcOf env = ""
  · refine Or.inl ⟨rfl, rfl, hv, ?_⟩
    simp only [vsrcOf] at hv
    simp [mainSetup, hw, hg, hv]
  · refine Or.inr ?_
    have hv2 : (loadShaderSourceFromFile env "vshader.vert").2 = [] :=
      load_of_fst_ne env _ hv
    replace hv : ¬((loadShaderSourceFromFile env "vshader.vert").1 = "") := hv
    by_cases hf : fsrcOf env = ""
    · refine Or.inl ⟨rfl, rfl, hv, hf, ?_⟩
      simp only [fsrcOf] at hf
      simp [mainSetup, hw, hg, hv, hf, hv2]
    · refine Or.inr ?_
      have hf2 : (loadShaderSourceFromFile env "fshader.frag").2 = [] :=
        load_of_fst_ne env _ hf
      replace hf : ¬((loadShaderSourceFromFile env "fshader.frag").1 = "") := hf
      cases hcv : env.compileOk GL_VERTEX_SHADER (vsrcOf env) with
      | false =>
        refine Or.inl ⟨rfl, rfl, hv, hf, rfl, ?_⟩
        simp only [vsrcOf] at hcv
        simp [mainSetup, hw, hg, hv, hf, hv2, hf2, hcv, compileShader,
          vertFailTrace, vsrcOf]
      | true =>
      refine Or.inr ?_
      have hcv' := hcv
      simp only [vsrcOf] at hcv'
      cases hcf : env.compileOk GL_FRAGMENT_SHADER (fsrcOf env) with
      | false =>
        refine Or.inl ⟨rfl, rfl, hv, hf, rfl, rfl, ?_⟩
        simp only [fsrcOf] at hcf
        simp [mainSetup, hw, hg, hv, hf, hv2, hf2, hcv', hcf, compileShader,
          fragFailTrace, vsrcOf, fsrcOf]
      | true =>
      refine Or.inr ?_
      have hcf' := hcf
      simp only [fsrcOf] at hcf'
      cases hl : env.linkOk with
      | false =>
        refine Or.inl ⟨rfl, rfl, hv, hf, rfl, rfl, rfl, ?_⟩
        simp [mainSetup, hw, hg, hv, hf, hv2, hf2, hcv', hcf', hl,
          compileShader, linkFailTrace, vsrcOf, fsrcOf]
      | true =>
        refine Or.inr ⟨rfl, rfl, hv, hf, rfl, rfl, rfl, ?_⟩
        simp [mainSetup, hw, hg, hv, hf, hv2, hf2, hcv', hcf', hl,
          compileShader, readyTrace, vsrcOf, fsrcOf]

theorem strTake_length_le (s : String) (n : Nat) : (strTake s n).length ≤ n := by
  show (s.data.take n).length ≤ n
  rw [List.length_take]
  exact min_le_left _ _

/-- Claim C1: along every execution path of main that exits (normal exit,
window-creation failure, file-read failure, vertex or fragment compile
failure, link failure), each GPU object that was created (vertex shader,
fragment shader, program, vertex array, vertex buffer) is deleted exactly
once before the process exits: created names are pairwise distinct, and the
trace's deletions are a permutation of its creations, so no name is passed
to a delete call twice and no created name is left undeleted. -/
theorem main_gl_objects_deleted_exactly_once (env : Env) (fuel : Nat)
    (r : RunResult) (h : mainRun env fuel = some r) :
    (creations r.trace).Nodup ∧
    (deletions r.trace).Perm (creations r.trace) := by
  unfold mainRun at h
  rcases mainSetup_cases env with
      ⟨_, heq⟩ | ⟨_, _, heq⟩ | ⟨_, _, _, heq⟩ | ⟨_, _, _, _, heq⟩
    | ⟨_, _, _, _, _, heq⟩ | ⟨_, _, _, _, _, _, heq⟩
    | ⟨_, _, _, _, _, _, _, heq⟩ | ⟨_, _, _, _, _, _, _, heq⟩ <;>
    rw [heq] at h
  case inl =>
    cases h
    constructor <;> simp [creations, deletions, windowFailTrace]
  case inr.inl =>
    cases h
    constructor <;> simp [creations, deletions, gladFailTrace]
  case inr.inr.inl =>
    cases h
    constructor
    · rw [creations_append, creations_load]
      simp [creations]
    · rw [deletions_append, deletions_load, creations_append, creations_load]
      simp [creations, deletions]
  case inr.inr.inr.inl =>
    cases h
    constructor
    · rw [creations_append, creations_load]
      simp [creations]
    · rw [deletions_append, deletions_load, creations_append, creations_load]
      simp [creations, deletions]
  case inr.inr.inr.inr.inl =>
    cases h
    constructor <;> simp [creations, deletions, vertFailTrace]
  case inr.inr.inr.inr.inr.inl =>
    cases h
    refine ⟨?_, ?_⟩ <;> simp [creations, deletions, fragFailTrace]
    decide
  case inr.inr.inr.inr.inr.inr.inl =>
    cases h
    constructor <;> simp [creations, deletions, linkFailTrace]
  case inr.inr.inr.inr.inr.inr.inr =>
    rw [Option.map_eq_some'] at h
    obtain ⟨lt, hlt, rfl⟩ := h
    obtain ⟨n, rfl⟩ := renderLoop_eq_loopIterates env 3 4 fuel ⟨false, 0⟩ lt hlt
    constructor <;>
    · simp only [creations_append, deletions_append, creations_loopIterates,
        deletions_loopIterates]
      simp [creations, deletions, readyTrace, shutdownTrace]
      all_goals decide

/-- Claim C2: when compilation of a shader fails, compileShader retrieves a
driver log of bounded length, reports it tagged with the shader kind,
deletes the shader object and returns 0; under any compile failure main
never attempts linking (no glLinkProgram, and no program is even created);
and when specifically the fragment shader fails after a successful vertex
compile, main's trace is exactly the fragment-failure trace, which deletes
the previously compiled vertex shader (name 1), and main exits with -1. -/
theorem compileShader_failure_reports_deletes_aborts :
    (∀ (env : Env) (next ty : Nat) (src : String),
      env.compileOk ty src = false →
        compileShader env next ty src =
          (0, next + 1,
            [.createShader ty next, .shaderSource next src,
             .compileShaderCall next,
             .stderrLine (compileFailLine env ty src), .deleteShader next]) ∧
        (shaderLogReported env ty src).length < INFO_LOG_SIZE)
  ∧ (∀ (env : Env) (fuel : Nat) (r : RunResult),
      mainRun env fuel = some r →
      (env.compileOk GL_VERTEX_SHADER (vsrcOf env) = false ∨
        env.compileOk GL_FRAGMENT_SHADER (fsrcOf env) = false) →
        (∀ p, GLEvent.linkProgram p ∉ r.trace) ∧
        (∀ p, GLEvent.createProgram p ∉ r.trace))
  ∧ (∀ (env : Env) (fuel : Nat) (r : RunResult),
      mainRun env fuel = some r →
      env.windowOk = true → env.gladOk = true →
      vsrcOf env ≠ "" → fsrcOf env ≠ "" →
      env.compileOk GL_VERTEX_SHADER (vsrcOf env) = true →
      env.compileOk GL_FRAGMENT_SHADER (fsrcOf env) = false →
        r.trace = fragFailTrace env ∧ GLEvent.deleteShader 1 ∈ r.trace ∧
        r.exitCode = -1) := by
  refine ⟨?_, ?_, ?_⟩
  · intro env next ty src hc
    constructor
    · simp [compileShader, hc]
    · calc (shaderLogReported env ty src).length
          ≤ INFO_LOG_SIZE - 1 := strTake_length_le _ _
        _ < INFO_LOG_SIZE := by decide
  · intro env fuel r h hd
    unfold mainRun at h
    rcases mainSetup_cases env with
        ⟨_, heq⟩ | ⟨_, _, heq⟩ | ⟨_, _, _, heq⟩ | ⟨_, _, _, _, heq⟩
      | ⟨_, _, _, _, _, heq⟩ | ⟨_, _, _, _, _, _, heq⟩
      | ⟨_, _, _, _, hcv, hcf, _, heq⟩
      | ⟨_, _, _, _, hcv, hcf, _, heq⟩ <;>
      rw [heq] at h
    · cases h
      exact ⟨fun p => by simp [windowFailTrace],
        fun p => by simp [windowFailTrace]⟩
    · cases h
      exact ⟨fun p => by simp [gladFailTrace],
        fun p => by simp [gladFailTrace]⟩
    · cases h
      constructor <;> intro p hmem <;> rw [List.mem_append] at hmem <;>
        rcases hmem with hmem | hmem
      · obtain ⟨s, hs⟩ := load_events_stderr _ _ _ hmem
        exact GLEvent.noConfusion hs
      · simp at hmem
      · obtain ⟨s, hs⟩ := load_events_stderr _ _ _ hmem
        exact GLEvent.noConfusion hs
      · simp at hmem
    · cases h
      constructor <;> intro p hmem <;> rw [List.mem_append] at hmem <;>
        rcases hmem with hmem | hmem
      · obtain ⟨s, hs⟩ := load_events_stderr _ _ _ hmem
        exact GLEvent.noConfusion hs
      · simp at hmem
      · obtain ⟨s, hs⟩ := load_events_stderr _ _ _ hmem
        exact GLEvent.noConfusion hs
      · simp at hmem
    · cases h
      exact ⟨fun p => by simp [vertFailTrace],
        fun p => by simp [vertFailTrace]⟩
    · cases h
      exact ⟨fun p => by simp [fragFailTrace],
        fun p => by simp [fragFailTrace]⟩
    · rcases hd with hd | hd <;> simp_all
    · rcases hd with hd | hd <;> simp_all
  · intro env fuel r h hw hg hv hf hcv hcf
    unfold mainRun at h
    rcases mainSetup_cases env with
        ⟨hw2, heq⟩ | ⟨_, hg2, heq⟩ | ⟨_, _, hv2, heq⟩ | ⟨_, _, _, hf2, heq⟩
      | ⟨_, _, _, _, hcv2, heq⟩ | ⟨_, _, _, _, _, _, heq⟩
      | ⟨_, _, _, _, _, hcf2, _, heq⟩
      | ⟨_, _, _, _, _, hcf2, _, heq⟩
    · rw [hw] at hw2; cases hw2
    · rw [hg] at hg2; cases hg2
    · exact absurd hv2 hv
    · exact absurd hf2 hf
    · rw [hcv] at hcv2; cases hcv2
    · rw [heq] at h
      cases h
      refine ⟨rfl, ?_, rfl⟩
      simp [fragFailTrace]
    · rw [hcf] at hcf2; cases hcf2
    · rw [hcf] at hcf2; cases hcf2

/-- Witness for C2: the oracle whose driver rejects fragment shaders;
the vertex shader compiles, the fragment shader does not. -/
theorem compileShader_failure_reports_deletes_aborts_w :
    (compileShader envFragFail 7 GL_FRAGMENT_SHADER "F" =
      (0, 8,
        [.createShader GL_FRAGMENT_SHADER 7, .shaderSource 7 "F",
         .compileShaderCall 7,
         .stderrLine (compileFailLine envFragFail GL_FRAGMENT_SHADER "F"),
         .deleteShader 7]) ∧
      (shaderLogReported envFragFail GL_FRAGMENT_SHADER "F").length
        < INFO_LOG_SIZE) ∧
    ((∀ p, GLEvent.linkProgram p ∉
        ((mainRun envFragFail 1).getD ⟨[], 0⟩).trace) ∧
      (∀ p, GLEvent.createProgram p ∉
        ((mainRun envFragFail 1).getD ⟨[], 0⟩).trace)) ∧
    (((mainRun envFragFail 1).getD ⟨[], 0⟩).trace = fragFailTrace envFragFail ∧
      GLEvent.deleteShader 1 ∈ ((mainRun envFragFail 1).getD ⟨[], 0⟩).trace ∧
      ((mainRun envFragFail 1).getD ⟨[], 0⟩).exitCode = -1) :=
  ⟨compileShader_failure_reports_deletes_aborts.1 envFragFail 7
      GL_FRAGMENT_SHADER "F" rfl,
    compileShader_failure_reports_deletes_aborts.2.1 envFragFail 1
      ((mainRun envFragFail 1).getD ⟨[], 0⟩) rfl (Or.inr rfl),
    compileShader_failure_reports_deletes_aborts.2.2 envFragFail 1
      ((mainRun envFragFail 1).getD ⟨[], 0⟩) rfl rfl rfl (by decide) (by decide)
      rfl rfl⟩

/-- Claim C3: when linking fails main's trace is exactly the link-failure
trace — it reports a bounded-length log line and deletes both shader
objects (names 1 and 2) and the program object (name 3) — and main exits
with -1 before any draw; when linking succeeds, at render-loop entry the
setup trace holds exactly one live (created, undeleted) program object and
no live shader objects. -/
theorem link_failure_cleanup_and_unique_program_at_loop_entry :
    (∀ (env : Env) (fuel : Nat) (r : RunResult),
      mainRun env fuel = some r →
      env.linkOk = false →
      env.windowOk = true → env.gladOk = true →
      vsrcOf env ≠ "" → fsrcOf env ≠ "" →
      env.compileOk GL_VERTEX_SHADER (vsrcOf env) = true →
      env.compileOk GL_FRAGMENT_SHADER (fsrcOf env) = true →
        r.trace = linkFailTrace env ∧ r.exitCode = -1 ∧
        GLEvent.stderrLine (linkFailLine env) ∈ r.trace ∧
        (programLogReported env).length < INFO_LOG_SIZE ∧
        GLEvent.deleteShader 1 ∈ r.trace ∧ GLEvent.deleteShader 2 ∈ r.trace ∧
        GLEvent.deleteProgram 3 ∈ r.trace ∧ drawCount r.trace = 0)
  ∧ (∀ (env : Env) (tr : List GLEvent) (prog vao vbo : Nat),
      mainSetup env = .ready tr prog vao vbo →
        livePrograms tr = [prog] ∧ liveShaders tr = []) := by
  constructor
  · intro env fuel r h hl hw hg hv hf hcv hcf
    unfold mainRun at h
    rcases mainSetup_cases env with
        ⟨hw2, heq⟩ | ⟨_, hg2, heq⟩ | ⟨_, _, hv2, heq⟩ | ⟨_, _, _, hf2, heq⟩
      | ⟨_, _, _, _, hcv2, heq⟩ | ⟨_, _, _, _, _, hcf2, heq⟩
      | ⟨_, _, _, _, _, _, _, heq⟩ | ⟨_, _, _, _, _, _, hl2, heq⟩
    · rw [hw] at hw2; cases hw2
    · rw [hg] at hg2; cases hg2
    · exact absurd hv2 hv
    · exact absurd hf2 hf
    · rw [hcv] at hcv2; cases hcv2
    · rw [hcf] at hcf2; cases hcf2
    · rw [heq] at h
      cases h
      refine ⟨rfl, rfl, ?_, ?_, ?_, ?_, ?_, ?_⟩
      · simp [linkFailTrace]
      · calc (programLogReported env).length
            ≤ INFO_LOG_SIZE - 1 := strTake_length_le _ _
          _ < INFO_LOG_SIZE := by decide
      · simp [linkFailTrace]
      · simp [linkFailTrace]
      · simp [linkFailTrace]
      · simp [drawCount, linkFailTrace]
    · rw [hl] at hl2; cases hl2
  · intro env tr prog vao vbo h
    rcases mainSetup_cases env with
        ⟨_, heq⟩ | ⟨_, _, heq⟩ | ⟨_, _, _, heq⟩ | ⟨_, _, _, _, heq⟩
      | ⟨_, _, _, _, _, heq⟩ | ⟨_, _, _, _, _, _, heq⟩
      | ⟨_, _, _, _, _, _, _, heq⟩ | ⟨_, _, _, _, _, _, _, heq⟩ <;>
      rw [heq] at h <;> cases h
    constructor
    · simp [livePrograms, readyTrace]
    · simp [liveShaders, readyTrace]

/-- Witness for C3: the link-failing oracle for the first part, the
all-successful oracle for the loop-entry part. -/
theorem link_failure_cleanup_and_unique_program_at_loop_entry_w :
    (((mainRun envLinkFail 1).getD ⟨[], 0⟩).trace = linkFailTrace envLinkFail ∧
      ((mainRun envLinkFail 1).getD ⟨[], 0⟩).exitCode = -1 ∧
      GLEvent.stderrLine (linkFailLine envLinkFail) ∈
        ((mainRun envLinkFail 1).getD ⟨[], 0⟩).trace ∧
      (programLogReported envLinkFail).length < INFO_LOG_SIZE ∧
      GLEvent.deleteShader 1 ∈ ((mainRun envLinkFail 1).getD ⟨[], 0⟩).trace ∧
      GLEvent.deleteShader 2 ∈ ((mainRun envLinkFail 1).getD ⟨[], 0⟩).trace ∧
      GLEvent.deleteProgram 3 ∈ ((mainRun envLinkFail 1).getD ⟨[], 0⟩).trace ∧
      drawCount ((mainRun envLinkFail 1).getD ⟨[], 0⟩).trace = 0) ∧
    (livePrograms (readyTrace envHappy) = [3] ∧
      liveShaders (readyTrace envHappy) = []) :=
  ⟨link_failure_cleanup_and_unique_program_at_loop_entry.1 envLinkFail 1
      ((mainRun envLinkFail 1).getD ⟨[], 0⟩) rfl rfl rfl rfl (by decide)
      (by decide) rfl rfl,
    link_failure_cleanup_and_unique_program_at_loop_entry.2 envHappy
      (readyTrace envHappy) 3 4 5 (by rfl)⟩

/-- Claim C4: when a file path cannot be opened or read,
loadShaderSourceFromFile reports the failing path and the reason to
standard error and returns the empty string; and whenever either shader
source comes back empty, main exits with -1, terminating GLFW, without ever
calling glCreateProgram. -/
theorem load_failure_reports_and_main_exits_without_program :
    (∀ (env : Env) (p msg : String),
      env.readFile p = .error msg →
        loadShaderSourceFromFile env p =
          ("", [.stderrLine (loadFailLine p msg)]))
  ∧ (∀ (env : Env) (fuel : Nat) (r : RunResult),
      mainRun env fuel = some r →
      (vsrcOf env = "" ∨ fsrcOf env = "") →
        (∀ q, GLEvent.createProgram q ∉ r.trace) ∧
        r.exitCode = -1 ∧ GLEvent.glfwTerminate ∈ r.trace) := by
  constructor
  · intro env p msg h
    unfold loadShaderSourceFromFile
    rw [h]
  · intro env fuel r h hd
    unfold mainRun at h
    rcases mainSetup_cases env with
        ⟨_, heq⟩ | ⟨_, _, heq⟩ | ⟨_, _, _, heq⟩ | ⟨_, _, _, _, heq⟩
      | ⟨_, _, hv2, hf2, _, heq⟩ | ⟨_, _, hv2, hf2, _, _, heq⟩
      | ⟨_, _, hv2, hf2, _, _, _, heq⟩ | ⟨_, _, hv2, hf2, _, _, _, heq⟩ <;>
      rw [heq] at h
    · cases h
      exact ⟨fun q => by simp [windowFailTrace], rfl, by simp [windowFailTrace]⟩
    · cases h
      exact ⟨fun q => by simp [gladFailTrace], rfl, by simp [gladFailTrace]⟩
    · cases h
      refine ⟨?_, rfl, by simp⟩
      intro q hmem
      rw [List.mem_append] at hmem
      rcases hmem with hmem | hmem
      · obtain ⟨s, hs⟩ := load_events_stderr _ _ _ hmem
        exact GLEvent.noConfusion hs
      · simp at hmem
    · cases h
      refine ⟨?_, rfl, by simp⟩
      intro q hmem
      rw [List.mem_append] at hmem
      rcases hmem with hmem | hmem
      · obtain ⟨s, hs⟩ := load_events_stderr _ _ _ hmem
        exact GLEvent.noConfusion hs
      · simp at hmem
    · rcases hd with hd | hd
      · exact absurd hd hv2
      · exact absurd hd hf2
    · rcases hd with hd | hd
      · exact absurd hd hv2
      · exact absurd hd hf2
    · rcases hd with hd | hd
      · exact absurd hd hv2
      · exact absurd hd hf2
    · rcases hd with hd | hd
      · exact absurd hd hv2
      · exact absurd hd hf2

/-- Witness for C4: the oracle whose filesystem rejects every open. -/
theorem load_failure_reports_and_main_exits_without_program_w :
    (loadShaderSourceFromFile envNoFile "vshader.vert" =
      ("", [.stderrLine (loadFailLine "vshader.vert" "ifstream failure")])) ∧
    ((∀ q, GLEvent.createProgram q ∉
        ((mainRun envNoFile 1).getD ⟨[], 0⟩).trace) ∧
      ((mainRun envNoFile 1).getD ⟨[], 0⟩).exitCode = -1 ∧
      GLEvent.glfwTerminate ∈ ((mainRun envNoFile 1).getD ⟨[], 0⟩).trace) :=
  ⟨load_failure_reports_and_main_exits_without_program.1 envNoFile
      "vshader.vert" "ifstream failure" rfl,
    load_failure_reports_and_main_exits_without_program.2 envNoFile 1
      ((mainRun envNoFile 1).getD ⟨[], 0⟩) rfl (Or.inl rfl)⟩

/-- Claim C9: loadShaderSourceFromFile is total at its interface — for every
path it returns either the file's contents (on a successful read) or the
empty string, with no other outcome; a file that reads successfully but is
empty yields the empty string, indistinguishable to main from a read
failure, so main exits with -1, creating no GL object at all (its whole
trace is the single glfwTerminate call). -/
theorem loader_total_and_empty_file_treated_as_failure :
    (∀ (env : Env) (p c : String),
      env.readFile p = .ok c → loadShaderSourceFromFile env p = (c, []))
  ∧ (∀ (env : Env) (p : String),
      (loadShaderSourceFromFile env p).1 = "" ∨
        env.readFile p = .ok (loadShaderSourceFromFile env p).1)
  ∧ (∀ (env : Env) (fuel : Nat) (r : RunResult),
      mainRun env fuel = some r →
      env.windowOk = true → env.gladOk = true →
      env.readFile "vshader.vert" = .ok "" →
        r.exitCode = -1 ∧ creations r.trace = [] ∧
        r.trace = [.glfwTerminate]) := by
  refine ⟨load_snd_of_ok, ?_, ?_⟩
  · intro env p
    unfold loadShaderSourceFromFile
    rcases he : env.readFile p with m | c
    · exact Or.inl rfl
    · exact Or.inr rfl
  · intro env fuel r h hw hg hok
    have hload : loadShaderSourceFromFile env "vshader.vert" = ("", []) :=
      load_snd_of_ok env _ _ hok
    have hv : vsrcOf env = "" := by rw [vsrcOf, hload]
    unfold mainRun at h
    rcases mainSetup_cases env with
        ⟨hw2, heq⟩ | ⟨_, hg2, heq⟩ | ⟨_, _, _, heq⟩ | ⟨_, _, hv2, _, heq⟩
      | ⟨_, _, hv2, _, _, heq⟩ | ⟨_, _, hv2, _, _, _, heq⟩
      | ⟨_, _, hv2, _, _, _, _, heq⟩ | ⟨_, _, hv2, _, _, _, _, heq⟩
    · rw [hw] at hw2; cases hw2
    · rw [hg] at hg2; cases hg2
    · rw [heq] at h
      cases h
      refine ⟨rfl, ?_, ?_⟩ <;> rw [hload] <;> simp [creations]
    · exact absurd hv hv2
    · exact absurd hv hv2
    · exact absurd hv hv2
    · exact absurd hv hv2
    · exact absurd hv hv2

/-- Witness for C9: the oracle whose filesystem returns empty contents. -/
theorem loader_total_and_empty_file_treated_as_failure_w :
    (loadShaderSourceFromFile envEmptyFile "vshader.vert" = ("", [])) ∧
    ((loadShaderSourceFromFile envEmptyFile "vshader.vert").1 = "" ∨
      envEmptyFile.readFile "vshader.vert" =
        .ok (loadShaderSourceFromFile envEmptyFile "vshader.vert").1) ∧
    (((mainRun envEmptyFile 1).getD ⟨[], 0⟩).exitCode = -1 ∧
      creations ((mainRun envEmptyFile 1).getD ⟨[], 0⟩).trace = [] ∧
      ((mainRun envEmptyFile 1).getD ⟨[], 0⟩).trace = [.glfwTerminate]) :=
  ⟨loader_total_and_empty_file_treated_as_failure.1 envEmptyFile
      "vshader.vert" "" rfl,
    loader_total_and_empty_file_treated_as_failure.2.1 envEmptyFile
      "vshader.vert",
    loader_total_and_empty_file_treated_as_failure.2.2 envEmptyFile 1
      ((mainRun envEmptyFile 1).getD ⟨[], 0⟩) rfl rfl rfl rfl⟩

/-- Claim C5: pressing the escape key during processInput sets the window's
close flag, and once the loop condition observes the close flag the loop
emits nothing more — in particular no further glDrawArrays call — while
every executed loop-body iteration (entered only when the entry check saw
the flag unset, by the definition of renderLoop) issues exactly one draw
call. -/
theorem escape_sets_close_flag_and_no_draw_after_observed :
    (∀ (env : Env) (s : LoopState),
      env.escPressed s.iter = true →
        (processInput env s).shouldClose = true)
  ∧ (∀ (env : Env) (prog vao : Nat) (s : LoopState) (fuel : Nat)
      (tr : List GLEvent),
      s.shouldClose = true → renderLoop env prog vao s fuel = some tr →
        tr = [] ∧ drawCount tr = 0)
  ∧ (∀ (env : Env) (prog vao : Nat) (s : LoopState),
      drawCount (loopBody env prog vao s).1 = 1) := by
  refine ⟨?_, ?_, ?_⟩
  · intro env s h
    simp [processInput, h]
  · intro env prog vao s fuel tr hc h
    have := renderLoop_nil_of_shouldClose env prog vao s fuel tr hc h
    subst this
    exact ⟨rfl, rfl⟩
  · intro env prog vao s
    rfl

/-- Witness for C5: escape pressed at iteration 0 sets the flag; a loop
started with the flag set emits nothing. -/
theorem escape_sets_close_flag_and_no_draw_after_observed_w :
    (processInput envHappy ⟨false, 0⟩).shouldClose = true ∧
    (([] : List GLEvent) = [] ∧ drawCount [] = 0) ∧
    drawCount (loopBody envHappy 3 4 ⟨false, 0⟩).1 = 1 :=
  ⟨escape_sets_close_flag_and_no_draw_after_observed.1 envHappy ⟨false, 0⟩ rfl,
    escape_sets_close_flag_and_no_draw_after_observed.2.1 envHappy 3 4
      ⟨true, 0⟩ 1 [] rfl rfl,
    escape_sets_close_flag_and_no_draw_after_observed.2.2 envHappy 3 4
      ⟨false, 0⟩⟩

/-- Claim C6: every iteration of the render loop performs, in source order:
set the fixed clear color and clear the color buffer, bind the shader
program and the vertex array, issue exactly one triangle draw call of 3
vertices, process input, poll platform events, and swap framebuffers; and
every trace the render loop produces is a concatenation of such
iterations. -/
theorem render_loop_iteration_order :
    (∀ (env : Env) (prog vao : Nat) (s : LoopState),
      (loopBody env prog vao s).1 =
        [.clearColor (1/5) (3/10) (3/10) 1, .clear GL_COLOR_BUFFER_BIT,
         .useProgram prog, .bindVertexArray vao,
         .drawArrays GL_TRIANGLES 0 3,
         .processInputCall, .pollEventsCall, .swapBuffers])
  ∧ (∀ (env : Env) (prog vao : Nat) (s : LoopState) (fuel : Nat)
      (tr : List GLEvent),
      renderLoop env prog vao s fuel = some tr →
        ∃ n, tr = loopIterates env prog vao s n) := by
  exact ⟨fun env prog vao s => rfl,
    fun env prog vao s fuel tr h =>
      renderLoop_eq_loopIterates env prog vao fuel s tr h⟩

/-- Witness for C6: two iterations at the all-successful oracle. -/
theorem render_loop_iteration_order_w :
    (loopBody envHappy 3 4 ⟨false, 0⟩).1 =
      [.clearColor (1/5) (3/10) (3/10) 1, .clear GL_COLOR_BUFFER_BIT,
       .useProgram 3, .bindVertexArray 4, .drawArrays GL_TRIANGLES 0 3,
       .processInputCall, .pollEventsCall, .swapBuffers] ∧
    ∃ n, (renderLoop envHappy 3 4 ⟨false, 0⟩ 2).getD [] =
      loopIterates envHappy 3 4 ⟨false, 0⟩ n :=
  ⟨render_loop_iteration_order.1 envHappy 3 4 ⟨false, 0⟩,
    render_loop_iteration_order.2 envHappy 3 4 ⟨false, 0⟩ 2
      ((renderLoop envHappy 3 4 ⟨false, 0⟩ 2).getD []) rfl⟩

/-- Claim C8: the vertex buffer receives exactly 9 floats (3 vertices of
x, y, z) in a single glBufferData upload — the setup trace contains exactly
that one upload, and a full run's trace contains at most that one upload and
no other buffer-modifying call, so nothing modifies the buffer's contents
after the upload. -/
theorem vertex_buffer_uploaded_once_nine_floats :
    vertices.length = 9
  ∧ (∀ (env : Env) (fuel : Nat) (r : RunResult),
      mainRun env fuel = some r →
        bufferUploads r.trace = [] ∨ bufferUploads r.trace = [vertices])
  ∧ (∀ (env : Env) (tr : List GLEvent) (prog vao vbo : Nat),
      mainSetup env = .ready tr prog vao vbo →
        bufferUploads tr = [vertices]) := by
  refine ⟨rfl, ?_, ?_⟩
  · intro env fuel r h
    unfold mainRun at h
    rcases mainSetup_cases env with
        ⟨_, heq⟩ | ⟨_, _, heq⟩ | ⟨_, _, _, heq⟩ | ⟨_, _, _, _, heq⟩
      | ⟨_, _, _, _, _, heq⟩ | ⟨_, _, _, _, _, _, heq⟩
      | ⟨_, _, _, _, _, _, _, heq⟩ | ⟨_, _, _, _, _, _, _, heq⟩ <;>
      rw [heq] at h
    · cases h
      exact Or.inl (by simp [bufferUploads, windowFailTrace])
    · cases h
      exact Or.inl (by simp [bufferUploads, gladFailTrace])
    · cases h
      refine Or.inl ?_
      rw [bufferUploads_append, bufferUploads_load]
      simp [bufferUploads]
    · cases h
      refine Or.inl ?_
      rw [bufferUploads_append, bufferUploads_load]
      simp [bufferUploads]
    · cases h
      exact Or.inl (by simp [bufferUploads, vertFailTrace])
    · cases h
      exact Or.inl (by simp [bufferUploads, fragFailTrace])
    · cases h
      exact Or.inl (by simp [bufferUploads, linkFailTrace])
    · rw [Option.map_eq_some'] at h
      obtain ⟨lt, hlt, rfl⟩ := h
      obtain ⟨n, rfl⟩ :=
        renderLoop_eq_loopIterates env 3 4 fuel ⟨false, 0⟩ lt hlt
      refine Or.inr ?_
      simp only [bufferUploads_append, bufferUploads_loopIterates]
      simp [bufferUploads, readyTrace, shutdownTrace]
  · intro env tr prog vao vbo h
    rcases mainSetup_cases env with
        ⟨_, heq⟩ | ⟨_, _, heq⟩ | ⟨_, _, _, heq⟩ | ⟨_, _, _, _, heq⟩
      | ⟨_, _, _, _, _, heq⟩ | ⟨_, _, _, _, _, _, heq⟩
      | ⟨_, _, _, _, _, _, _, heq⟩ | ⟨_, _, _, _, _, _, _, heq⟩ <;>
      rw [heq] at h <;> cases h
    simp [bufferUploads, readyTrace]

/-- Witness for C8: the all-successful oracle uploads exactly the triangle's
nine coordinates. -/
theorem vertex_buffer_uploaded_once_nine_floats_w :
    vertices.length = 9 ∧
    (bufferUploads ((mainRun envHappy 2).getD ⟨[], 0⟩).trace = [] ∨
      bufferUploads ((mainRun envHappy 2).getD ⟨[], 0⟩).trace = [vertices]) ∧
    bufferUploads (readyTrace envHappy) = [vertices] :=
  ⟨vertex_buffer_uploaded_once_nine_floats.1,
    vertex_buffer_uploaded_once_nine_floats.2.1 envHappy 2
      ((mainRun envHappy 2).getD ⟨[], 0⟩) rfl,
    vertex_buffer_uploaded_once_nine_floats.2.2 envHappy
      (readyTrace envHappy) 3 4 5 (by rfl)⟩

/-- Claim C10: in compileShader's failure report the shader-kind tag is
"VERTEX" exactly when the type argument equals GL_VERTEX_SHADER and
"FRAGMENT" for every other type value — in particular a geometry shader
would be reported as FRAGMENT — and the tagged line is what a failing
compileShader emits. -/
theorem shader_kind_tag_vertex_iff_fragment_otherwise :
    (∀ ty : Nat, shaderTypeStr ty = "VERTEX" ↔ ty = GL_VERTEX_SHADER)
  ∧ (∀ ty : Nat, ty ≠ GL_VERTEX_SHADER → shaderTypeStr ty = "FRAGMENT")
  ∧ shaderTypeStr GL_GEOMETRY_SHADER = "FRAGMENT"
  ∧ (∀ (env : Env) (next ty : Nat) (src : String),
      env.compileOk ty src = false →
        GLEvent.stderrLine
            ("ERROR::SHADER::" ++ shaderTypeStr ty ++ "::COMPILATION_FAILED\n"
              ++ shaderLogReported env ty src)
          ∈ (compileShader env next ty src).2.2) := by
  refine ⟨?_, ?_, by decide, ?_⟩
  · intro ty
    unfold shaderTypeStr
    by_cases h : ty = GL_VERTEX_SHADER <;> simp [h]
  · intro ty h
    simp [shaderTypeStr, h]
  · intro env next ty src hc
    simp [compileShader, hc, compileFailLine]

/-- Witness for C10: a failing geometry-shader compile is tagged FRAGMENT. -/
theorem shader_kind_tag_vertex_iff_fragment_otherwise_w :
    shaderTypeStr GL_GEOMETRY_SHADER = "FRAGMENT" ∧
    GLEvent.stderrLine
        ("ERROR::SHADER::" ++ shaderTypeStr GL_FRAGMENT_SHADER
          ++ "::COMPILATION_FAILED\n"
          ++ shaderLogReported envFragFail GL_FRAGMENT_SHADER "F")
      ∈ (compileShader envFragFail 1 GL_FRAGMENT_SHADER "F").2.2 :=
  ⟨shader_kind_tag_vertex_iff_fragment_otherwise.2.1 GL_GEOMETRY_SHADER
      (by decide),
    shader_kind_tag_vertex_iff_fragment_otherwise.2.2.2 envFragFail 1
      GL_FRAGMENT_SHADER "F" rfl⟩

/-- Claim C7: every line any run of main writes to standard error is one of
the fixed-tag fatal-error reports, and for compile and link failures the
driver-provided diagnostic written into the `char infoLog[INFO_LOG_SIZE]`
buffer never exceeds that 512-byte bound (at most 511 characters plus the
null terminator, so the buffer is never overrun), the reported lines being
exactly the fixed tag followed by the bounded log. -/
theorem fatal_reports_fixed_tag_and_bounded_log :
    (∀ (env : Env) (fuel : Nat) (r : RunResult) (s : String),
      mainRun env fuel = some r → GLEvent.stderrLine s ∈ r.trace →
        FatalReport env s)
  ∧ (∀ (env : Env) (ty : Nat) (src : String),
      (shaderLogReported env ty src).length < INFO_LOG_SIZE)
  ∧ (∀ env : Env, (programLogReported env).length < INFO_LOG_SIZE)
  ∧ (∀ (env : Env) (ty : Nat) (src : String),
      compileFailLine env ty src =
        "ERROR::SHADER::" ++ shaderTypeStr ty ++ "::COMPILATION_FAILED\n"
          ++ shaderLogReported env ty src)
  ∧ (∀ env : Env,
      linkFailLine env =
        "ERROR::SHADER::PROGRAM::LINKING_FAILED\n" ++ programLogReported env)
    := by
  refine ⟨?_, ?_, ?_, fun env ty src => rfl, fun env => rfl⟩
  · intro env fuel r s h hmem
    unfold mainRun at h
    rcases mainSetup_cases env with
        ⟨_, heq⟩ | ⟨_, _, heq⟩ | ⟨_, _, _, heq⟩ | ⟨_, _, _, _, heq⟩
      | ⟨_, _, _, _, _, heq⟩ | ⟨_, _, _, _, _, _, heq⟩
      | ⟨_, _, _, _, _, _, _, heq⟩ | ⟨_, _, _, _, _, _, _, heq⟩ <;>
      rw [heq] at h
    · cases h
      simp [windowFailTrace] at hmem
      exact Or.inl hmem
    · cases h
      simp [gladFailTrace] at hmem
      exact Or.inr (Or.inl hmem)
    · cases h
      rw [List.mem_append] at hmem
      rcases hmem with hmem | hmem
      · obtain ⟨m, _, hs⟩ := load_stderr_line env _ s hmem
        exact Or.inr (Or.inr (Or.inl ⟨_, m, hs⟩))
      · simp at hmem
    · cases h
      rw [List.mem_append] at hmem
      rcases hmem with hmem | hmem
      · obtain ⟨m, _, hs⟩ := load_stderr_line env _ s hmem
        exact Or.inr (Or.inr (Or.inl ⟨_, m, hs⟩))
      · simp at hmem
    · cases h
      simp [vertFailTrace] at hmem
      exact Or.inr (Or.inr (Or.inr (Or.inl ⟨_, _, hmem⟩)))
    · cases h
      simp [fragFailTrace] at hmem
      exact Or.inr (Or.inr (Or.inr (Or.inl ⟨_, _, hmem⟩)))
    · cases h
      simp [linkFailTrace] at hmem
      exact Or.inr (Or.inr (Or.inr (Or.inr hmem)))
    · rw [Option.map_eq_some'] at h
      obtain ⟨lt, hlt, rfl⟩ := h
      obtain ⟨n, rfl⟩ :=
        renderLoop_eq_loopIterates env 3 4 fuel ⟨false, 0⟩ lt hlt
      exfalso
      rw [List.mem_append, List.mem_append] at hmem
      rcases hmem with (hmem | hmem) | hmem
      · simp [readyTrace] at hmem
      · have := mem_loopIterates env 3 4 n ⟨false, 0⟩ _ hmem
        simp [isLoopEvent] at this
      · simp [shutdownTrace] at hmem
  · intro env ty src
    calc (shaderLogReported env ty src).length
        ≤ INFO_LOG_SIZE - 1 := strTake_length_le _ _
      _ < INFO_LOG_SIZE := by decide
  · intro env
    calc (programLogReported env).length
        ≤ INFO_LOG_SIZE - 1 := strTake_length_le _ _
      _ < INFO_LOG_SIZE := by decide

/-- Witness for C7: the failing-filesystem oracle's only stderr line is
classified as a fatal report. -/
theorem fatal_reports_fixed_tag_and_bounded_log_w :
    FatalReport envNoFile (loadFailLine "vshader.vert" "ifstream failure") :=
  fatal_reports_fixed_tag_and_bounded_log.1 envNoFile 1
    ((mainRun envNoFile 1).getD ⟨[], 0⟩)
    (loadFailLine "vshader.vert" "ifstream failure") rfl (by decide)

/-- Witness for C1: the all-successful oracle with escape pressed from the
first frame; main exits normally within fuel 2. -/
theorem main_gl_objects_deleted_exactly_once_w :
    (creations ((mainRun envHappy 2).getD ⟨[], 0⟩).trace).Nodup ∧
    (deletions ((mainRun envHappy 2).getD ⟨[], 0⟩).trace).Perm
      (creations ((mainRun envHappy 2).getD ⟨[], 0⟩).trace) :=
  main_gl_objects_deleted_exactly_once envHappy 2
    ((mainRun envHappy 2).getD ⟨[], 0⟩) rfl

end LearnOpenGL

